import Mathlib

/-!
Shallow embedding of the packet-format and packet-cache subsystem of
`src/Packet.h` / `src/Packet.cpp` (namespace `e57`).

Conventions of the embedding:
* Raw memory (packet buffers, the checked file's logical byte space) is a
  total function `Nat → Fin 256`; the C++ code only ever indexes inside a
  fixed 65536-byte array, so a total byte function models it exactly.
* Multi-byte integer fields are little-endian on disk and the host is
  little-endian (the `E57_BIGENDIAN` branches compile to no-op `swab`s),
  so a `uint16_t` field at offset `a` reads as `byte a + 256 * byte (a+1)`.
* `throw E57_EXCEPTION2(code, ...)` becomes returning `Except.error code`;
  the two error codes the claims distinguish are `E57_ERROR_INTERNAL` and
  `E57_ERROR_BAD_CV_PACKET` (BadFormat).
* In-place mutation of the cache plus C++ exception unwinding is modelled
  by returning the state reached at the point of the throw together with
  the error: `CacheState × Except E57ErrorCode α`.
-/

set_option autoImplicit false

namespace E57

/-- Error codes relevant to the packet layer: `E57_ERROR_INTERNAL`
(programming-contract violation) and `E57_ERROR_BAD_CV_PACKET`
(BadFormat: on-disk content violates a packet invariant). -/
inductive E57ErrorCode where
  | internal
  | badCVPacket
deriving DecidableEq, Repr

deriving instance DecidableEq for Except

/-- A raw byte buffer / logical byte address space. -/
def Buffer : Type := Nat → Fin 256

/-- Build a concrete buffer from a list of bytes; bytes past the end read 0
(the C++ constructors `memset` packets to zero). -/
def bufOfList (l : List (Fin 256)) : Buffer := fun i => l.getD i 0

/-- Constant from `#define E57_INDEX_PACKET 0`. -/
def E57_INDEX_PACKET : Nat := 0
/-- Constant from `#define E57_DATA_PACKET 1`. -/
def E57_DATA_PACKET : Nat := 1
/-- Constant from `#define E57_EMPTY_PACKET 2`. -/
def E57_EMPTY_PACKET : Nat := 2
/-- Constant from `#define E57_DATA_PACKET_MAX (64*1024)`. -/
def E57_DATA_PACKET_MAX : Nat := 64 * 1024

/-- Value of `sizeof(EmptyPacketHeader)` = 4 (uint8 + uint8 + uint16). -/
def sizeofEmptyPacketHeader : Nat := 4
/-- Value of `sizeof(DataPacketHeader)` = 6 (uint8 + uint8 + uint16 + uint16). -/
def sizeofDataPacketHeader : Nat := 6
/-- Value of `sizeof(IndexPacket)` = 16 + 16*2048: the 16-byte header plus the full
`entries[MAX_ENTRIES]` array (the struct is the whole maximum-size packet,
not just the header). -/
def sizeofIndexPacket : Nat := 16 + 16 * 2048

/-- Constant `IndexPacket::MAX_ENTRIES` = 2048. -/
def MAX_ENTRIES : Nat := 2048

/-- Little-endian `uint16_t` field at byte offset `a`. -/
def u16At (b : Buffer) (a : Nat) : Nat := (b a).val + 256 * (b (a + 1)).val

/-- Little-endian `uint64_t` field at byte offset `a`. -/
def u64At (b : Buffer) (a : Nat) : Nat :=
  (b a).val + 256 * ((b (a + 1)).val + 256 * ((b (a + 2)).val + 256 * ((b (a + 3)).val +
    256 * ((b (a + 4)).val + 256 * ((b (a + 5)).val + 256 * ((b (a + 6)).val +
    256 * (b (a + 7)).val))))))

/-- Common first byte of every packet: the `packetType` discriminator. -/
def packetTypeOf (b : Buffer) : Nat := (b 0).val

/-- Field `packetLogicalLengthMinus1` (offset 2 in every packet kind). -/
def packetLogicalLengthMinus1 (b : Buffer) : Nat := u16At b 2

/-- Field `bytestreamCount` of a data packet (offset 4). -/
def bytestreamCount (b : Buffer) : Nat := u16At b 4

/-- Field `entryCount` of an index packet (offset 4). -/
def entryCount (b : Buffer) : Nat := u16At b 4

/-- Field `indexLevel` of an index packet (offset 6). -/
def indexLevel (b : Buffer) : Nat := (b 6).val

/-- Field `entries[i].chunkRecordNumber` of an index packet: u64 at `16 + 16*i`. -/
def chunkRecordNumber (b : Buffer) (i : Nat) : Nat := u64At b (16 + 16 * i)

/-- Field `entries[i].chunkPhysicalOffset` of an index packet: u64 at `16 + 16*i + 8`. -/
def chunkPhysicalOffset (b : Buffer) (i : Nat) : Nat := u64At b (16 + 16 * i + 8)

/-- Entry `bsbLength[i]`, the i-th entry of the data packet's u16 length-prefix
table, which starts at `payload[0]`, i.e. byte offset 6. -/
def bsbLength (b : Buffer) (i : Nat) : Nat := u16At b (6 + 2 * i)

/-- Sum of the first `k` entries of the length-prefix table, in the order the
C++ loops accumulate it. -/
def sumLengths (b : Buffer) : Nat → Nat
  | 0 => 0
  | k + 1 => sumLengths b k + bsbLength b k

/-- Translation of `EmptyPacketHeader::verify(unsigned bufferLength)` (Packet.cpp lines
712-733), translated check for check. -/
def EmptyPacketHeader.verify (b : Buffer) (bufferLength : Nat) :
    Except E57ErrorCode Unit :=
  if packetTypeOf b ≠ E57_EMPTY_PACKET then .error .badCVPacket
  else
    let packetLength := packetLogicalLengthMinus1 b + 1
    if packetLength < sizeofEmptyPacketHeader then .error .badCVPacket
    else if packetLength % 4 ≠ 0 then .error .badCVPacket
    else if 0 < bufferLength ∧ bufferLength < packetLength then .error .badCVPacket
    else .ok ()

/-- Translation of `DataPacketHeader::verify(unsigned bufferLength)` (Packet.cpp lines
311-345), translated check for check. -/
def DataPacketHeader.verify (b : Buffer) (bufferLength : Nat) :
    Except E57ErrorCode Unit :=
  if packetTypeOf b ≠ E57_DATA_PACKET then .error .badCVPacket
  else
    let packetLength := packetLogicalLengthMinus1 b + 1
    if packetLength < sizeofDataPacketHeader then .error .badCVPacket
    else if packetLength % 4 ≠ 0 then .error .badCVPacket
    else if 0 < bufferLength ∧ bufferLength < packetLength then .error .badCVPacket
    else if bytestreamCount b = 0 then .error .badCVPacket
    else if sizeofDataPacketHeader + 2 * bytestreamCount b > packetLength then
      .error .badCVPacket
    else .ok ()

/-- Translation of `DataPacket::verify(unsigned bufferLength)` (Packet.cpp lines 380-421):
header verification, then the needed-length/3-byte-slack check, then the
zero-padding scan from `needed` up to `packetLength`. -/
def DataPacket.verify (b : Buffer) (bufferLength : Nat) :
    Except E57ErrorCode Unit :=
  match DataPacketHeader.verify b bufferLength with
  | .error e => .error e
  | .ok _ =>
    let totalStreamByteCount := sumLengths b (bytestreamCount b)
    let packetLength := packetLogicalLengthMinus1 b + 1
    let needed := sizeofDataPacketHeader + 2 * bytestreamCount b + totalStreamByteCount
    if needed > packetLength ∨ needed + 3 < packetLength then .error .badCVPacket
    else if ¬ ((List.range (packetLength - needed)).all
        fun k => (b (needed + k)).val == 0) then .error .badCVPacket
    else .ok ()

/-- Translation of `DataPacket::getBytestream(unsigned bytestreamNumber, unsigned& byteCount)`
(Packet.cpp lines 423-462).  The returned pointer
`&streamBase[totalPreceeding]` is `sizeof(DataPacketHeader) +
2*bytestreamCount + totalPreceeding` bytes past the packet start, so the
result is modelled as that byte offset paired with `byteCount`. -/
def DataPacket.getBytestream (b : Buffer) (bytestreamNumber : Nat) :
    Except E57ErrorCode (Nat × Nat) :=
  if packetTypeOf b ≠ E57_DATA_PACKET then .error .badCVPacket
  else if bytestreamNumber ≥ bytestreamCount b then .error .internal
  else
    let totalPreceeding := sumLengths b bytestreamNumber
    let byteCount := bsbLength b bytestreamNumber
    if sizeofDataPacketHeader + 2 * bytestreamCount b + totalPreceeding + byteCount >
        packetLogicalLengthMinus1 b + 1 then .error .internal
    else .ok (sizeofDataPacketHeader + 2 * bytestreamCount b + totalPreceeding, byteCount)

/-- The padding loop of the `E57_MAX_DEBUG` block of `IndexPacket::verify`
(Packet.cpp lines 603-608): every byte from `neededLength = 16 +
8*entryCount` up to `packetLength` must be zero.  (The source computes
`neededLength` with 8 bytes per entry although entries are 16 bytes each.) -/
def IndexPacket.paddingZero (b : Buffer) : Bool :=
  let packetLength := packetLogicalLengthMinus1 b + 1
  let neededLength := 16 + 8 * entryCount b
  (List.range (packetLength - neededLength)).all
    fun k => (b (neededLength + k)).val == 0

/-- The entry loop of the `E57_MAX_DEBUG` block of `IndexPacket::verify`
(Packet.cpp lines 610-643): record numbers bounded by `totalRecordCount`
when nonzero, physical offsets bounded by `fileSize` when nonzero, and both
strictly increasing. -/
def IndexPacket.entriesSorted (b : Buffer) (totalRecordCount fileSize : Nat) : Bool :=
  (List.range (entryCount b)).all fun i =>
    (decide (totalRecordCount = 0 ∨ chunkRecordNumber b i < totalRecordCount)) &&
    (decide (i = 0 ∨ chunkRecordNumber b (i - 1) < chunkRecordNumber b i)) &&
    (decide (fileSize = 0 ∨ chunkPhysicalOffset b i < fileSize)) &&
    (decide (i = 0 ∨ chunkPhysicalOffset b (i - 1) < chunkPhysicalOffset b i))

/-- The whole `E57_MAX_DEBUG` block of `IndexPacket::verify` (Packet.cpp
lines 602-644).  It throws `E57_ERROR_BAD_CV_PACKET` at the first violated
check; every throw carries the same error code, so the block is modelled as
one combined decidable condition. -/
def IndexPacket.maxDebugChecks (b : Buffer) (totalRecordCount fileSize : Nat) :
    Bool :=
  IndexPacket.paddingZero b && IndexPacket.entriesSorted b totalRecordCount fileSize

/-- Translation of `IndexPacket::verify(unsigned bufferLength, uint64_t totalRecordCount,
uint64_t fileSize)` (Packet.cpp lines 546-645), translated check for check.
`maxDebug` mirrors the `E57_MAX_DEBUG` compile switch that gates the
padding-zero and sorted-order loops; the reserved-byte loop throws the same
code at every index, so it is one `List.all` condition. -/
def IndexPacket.verify (b : Buffer) (bufferLength totalRecordCount fileSize : Nat)
    (maxDebug : Bool) : Except E57ErrorCode Unit :=
  if packetTypeOf b ≠ E57_INDEX_PACKET then .error .badCVPacket
  else
    let packetLength := packetLogicalLengthMinus1 b + 1
    if packetLength < sizeofIndexPacket then .error .badCVPacket
    else if packetLength % 4 ≠ 0 then .error .badCVPacket
    else if entryCount b = 0 then .error .badCVPacket
    else if entryCount b > MAX_ENTRIES then .error .badCVPacket
    else if indexLevel b > 5 then .error .badCVPacket
    else if indexLevel b > 0 ∧ entryCount b < 2 then .error .badCVPacket
    else if ¬ ((List.range 9).all fun i => (b (7 + i)).val == 0) then
      .error .badCVPacket
    else if 0 < bufferLength ∧ bufferLength < packetLength then .error .badCVPacket
    else if packetLength < 16 + 8 * entryCount b then .error .badCVPacket
    else if maxDebug ∧ ¬ IndexPacket.maxDebugChecks b totalRecordCount fileSize then
      .error .badCVPacket
    else .ok ()

/-!
### Packet read cache (Packet.h lines 21-66, Packet.cpp lines 56-295)

C++ exceptions unwind past in-place mutations, so every cache operation
returns the state reached at the point of the throw paired with the
`Except` outcome.
-/

/-- Struct `PacketReadCache::CacheEntry` (Packet.h lines 38-42). -/
structure CacheEntry where
  logicalOffset : Nat
  buffer : Buffer
  lastUsed : Nat

instance : Inhabited CacheEntry := ⟨⟨0, fun _ => 0, 0⟩⟩

/-- The mutable fields of `PacketReadCache` (Packet.h lines 44-47); the
backing `CheckedFile` is passed separately as a `Buffer` of logical bytes. -/
structure CacheState where
  lockCount : Nat
  useCount : Nat
  entries : List CacheEntry

/-- The LRU scan of `PacketReadCache::lock` (Packet.cpp lines 122-133):
`oldestEntry = 0; oldestUsed = entries.at(0).lastUsed;` then for each index,
strictly smaller `lastUsed` replaces the running best (so ties keep the
lowest index).  The fold walks the index list carrying
`(oldestEntry, oldestUsed)`. -/
def lruFold (l : List CacheEntry) : List Nat → Nat × Nat → Nat × Nat
  | [], p => p
  | i :: is, p =>
    lruFold l is
      (if (l.getD i default).lastUsed < p.2 then (i, (l.getD i default).lastUsed) else p)

/-- The slot index the LRU scan selects. -/
def lruSlot (st : CacheState) : Nat :=
  (lruFold st.entries (List.range st.entries.length)
    (0, (st.entries.getD 0 default).lastUsed)).1

/-- Body of `PacketReadCache::readPacket` after the paranoid length guard
(Packet.cpp lines 183-233): the full read overwrites the first
`packetLength` bytes of the slot's buffer, verification dispatches on the
discriminator (`IndexPacket::verify` is called with default
`totalRecordCount = 0`, `fileSize = 0`, and `E57_MAX_DEBUG` off), and only
after successful verification are `logicalOffset_` and `lastUsed_`
updated. -/
def readPacketBody (f : Buffer) (st : CacheState) (oldestEntry : Nat) (off : Nat) :
    CacheState × Except E57ErrorCode Unit :=
  let packetLength := u16At f (off + 2) + 1
  let oldBuf := (st.entries.getD oldestEntry default).buffer
  let newBuf : Buffer := fun i => if i < packetLength then f (off + i) else oldBuf i
  let e0 := st.entries.getD oldestEntry default
  let st1 : CacheState := { st with entries := st.entries.set oldestEntry { e0 with buffer := newBuf } }
  let vr : Except E57ErrorCode Unit :=
    if (f off).val = E57_DATA_PACKET then DataPacket.verify newBuf packetLength
    else if (f off).val = E57_INDEX_PACKET then
      IndexPacket.verify newBuf packetLength 0 0 false
    else if (f off).val = E57_EMPTY_PACKET then
      EmptyPacketHeader.verify newBuf packetLength
    else .error .internal
  match vr with
  | .error e => (st1, .error e)
  | .ok _ =>
    let e1 := st1.entries.getD oldestEntry default
    let e2 := { e1 with logicalOffset := off, lastUsed := st1.useCount + 1 }
    let st2 : CacheState :=
      { st1 with useCount := st1.useCount + 1, entries := st1.entries.set oldestEntry e2 }
    (st2, .ok ())

/-- Translation of `PacketReadCache::readPacket(unsigned oldestEntry, uint64_t
packetLogicalOffset)` (Packet.cpp lines 165-233): read the 4-byte common
header prefix at `off`, decode `packetLength = packetLogicalLengthMinus1+1`,
reject lengths above `E57_DATA_PACKET_MAX` before the full read, then run
the body. -/
def readPacket (f : Buffer) (st : CacheState) (oldestEntry : Nat) (off : Nat) :
    CacheState × Except E57ErrorCode Unit :=
  let packetLength := u16At f (off + 2) + 1
  if packetLength > E57_DATA_PACKET_MAX then (st, .error .badCVPacket)
  else readPacketBody f st oldestEntry off

/-- Translation of `PacketReadCache::lock(uint64_t packetLogicalOffset, char* &pkt)`
(Packet.cpp lines 82-150).  The returned `PacketLock`'s slot index stands
for the lock-plus-buffer pair handed to the caller. -/
def lock (f : Buffer) (st : CacheState) (packetLogicalOffset : Nat) :
    CacheState × Except E57ErrorCode Nat :=
  if 0 < st.lockCount then (st, .error .internal)
  else if packetLogicalOffset = 0 then (st, .error .internal)
  else
    match st.entries.findIdx? (fun e => e.logicalOffset == packetLogicalOffset) with
    | some i =>
      let e1 := { st.entries.getD i default with lastUsed := st.useCount + 1 }
      let st1 : CacheState :=
        { st with useCount := st.useCount + 1, entries := st.entries.set i e1 }
      ({ st1 with lockCount := st1.lockCount + 1 }, .ok i)
    | none =>
      let oldestEntry := lruSlot st
      let r := readPacket f st oldestEntry packetLogicalOffset
      match r.2 with
      | .error e => (r.1, .error e)
      | .ok _ => ({ r.1 with lockCount := r.1.lockCount + 1 }, .ok oldestEntry)

/-- Translation of `PacketReadCache::unlock(unsigned lockedEntry)` (Packet.cpp lines
152-163); `lockedEntry` is unused in the source as well. -/
def unlock (st : CacheState) (lockedEntry : Nat) : CacheState × Except E57ErrorCode Unit :=
  if st.lockCount ≠ 1 then (st, .error .internal)
  else ({ st with lockCount := st.lockCount - 1 }, .ok ())

/-- Translation of `PacketLock::~PacketLock()` (Packet.cpp lines 284-295): calls
`cache_->unlock(cacheIndex_)` inside `try { ... } catch (...) {}`, so the
holder always gets back the post-unlock state and never an error. -/
def PacketLock.destruct (st : CacheState) (cacheIndex : Nat) : CacheState :=
  (unlock st cacheIndex).1

/-!
### Concrete inputs for the scenario claims
-/

/-- The spec's 3-entry level-0 index packet: `packetType = 0`, flags 0,
`packetLogicalLengthMinus1 = 63`, `entryCount = 3`, `indexLevel = 0`, nine
zero reserved bytes, entries `(0,1024), (5,2048), (9,4096)` as
little-endian u64 pairs — 64 bytes in all. -/
def indexScenarioBuf : Buffer := bufOfList
  [0, 0, 63, 0, 3, 0, 0, 0, 0, 0, 0, 0, 0, 0, 0, 0,
   0, 0, 0, 0, 0, 0, 0, 0,  0, 4, 0, 0, 0, 0, 0, 0,
   5, 0, 0, 0, 0, 0, 0, 0,  0, 8, 0, 0, 0, 0, 0, 0,
   9, 0, 0, 0, 0, 0, 0, 0,  0, 16, 0, 0, 0, 0, 0, 0]

/-- The same index packet with the second and third entries swapped, so the
physical offsets (and record numbers) are out of order. -/
def indexScenarioSwappedBuf : Buffer := bufOfList
  [0, 0, 63, 0, 3, 0, 0, 0, 0, 0, 0, 0, 0, 0, 0, 0,
   0, 0, 0, 0, 0, 0, 0, 0,  0, 4, 0, 0, 0, 0, 0, 0,
   9, 0, 0, 0, 0, 0, 0, 0,  0, 16, 0, 0, 0, 0, 0, 0,
   5, 0, 0, 0, 0, 0, 0, 0,  0, 8, 0, 0, 0, 0, 0, 0]

/-- Data packet of the spec's scenario with declared logical length 40:
`bytestreamCount = 2`, length table `{10, 20}`, 30 stream bytes (zero),
no padding. -/
def dataScenarioBuf40 : Buffer := bufOfList [1, 0, 39, 0, 2, 0, 10, 0, 20, 0]

/-- Same data packet with declared logical length 43 (three zero padding
bytes past `needed = 40`). -/
def dataScenarioBuf43 : Buffer := bufOfList [1, 0, 42, 0, 2, 0, 10, 0, 20, 0]

/-- Same data packet with declared logical length 44. -/
def dataScenarioBuf44 : Buffer := bufOfList [1, 0, 43, 0, 2, 0, 10, 0, 20, 0]

/-- A data packet with a corrupted length table: declared logical length 12,
`bytestreamCount = 1`, but `bsbLength[0] = 100`, so stream 0 ends far past
the declared packet length. -/
def corruptLengthTableBuf : Buffer := bufOfList [1, 0, 11, 0, 1, 0, 100, 0]

/-- A logical byte space holding a valid empty packet
(`[2,0,3,0]`, declared length 4) at logical offset 4 and a packet with
unknown discriminator 7 at logical offset 12. -/
def testFile : Buffer := bufOfList
  [0, 0, 0, 0,  2, 0, 3, 0,  0, 0, 0, 0,  7, 0, 3, 0]

/-- The bytes of the empty packet at `testFile` offset 4, as slot contents. -/
def packetAt4 : Buffer := bufOfList [2, 0, 3, 0]

/-- The all-zero buffer of a freshly constructed cache slot. -/
def zeroBuffer : Buffer := fun _ => 0

/-- One-slot cache whose slot holds the packet of logical offset 4. -/
def cacheHolding4 : CacheState := ⟨0, 5, [⟨4, packetAt4, 5⟩]⟩

/-- One-slot cache with an outstanding lock (`lockCount = 1`). -/
def lockedCache : CacheState := ⟨1, 0, [⟨0, zeroBuffer, 0⟩]⟩

/-- Two-slot cache with no outstanding lock: slot 0 was used at stamp 7,
slot 1 at stamp 3, both holding stale offsets 20 and 24. -/
def twoSlotCache : CacheState := ⟨0, 7, [⟨20, zeroBuffer, 7⟩, ⟨24, zeroBuffer, 3⟩]⟩

/-- Cache state with a corrupted lock count of 2. -/
def doubleLockedCache : CacheState := ⟨2, 0, [⟨0, zeroBuffer, 0⟩]⟩

/-!
### Helper lemmas
-/

theorem sumLengths_le (b : Buffer) {n k : Nat} (h : n ≤ k) :
    sumLengths b n ≤ sumLengths b k := by
  induction k with
  | zero =>
    have hn : n = 0 := Nat.le_zero.mp h
    subst hn; exact Nat.le_refl _
  | succ k ih =>
    rcases Nat.eq_or_lt_of_le h with he | hl
    · subst he; exact Nat.le_refl _
    · exact Nat.le_trans (ih (Nat.lt_succ_iff.mp hl)) (Nat.le_add_right _ _)

theorem allZero_of_rangeAll {b : Buffer} {a len : Nat}
    (h : ((List.range len).all fun k => (b (a + k)).val == 0) = true) :
    ∀ i, a ≤ i → i < a + len → (b i).val = 0 := by
  intro i hi1 hi2
  have hk : i - a < len := by omega
  have hmem := List.all_eq_true.mp h (i - a) (List.mem_range.mpr hk)
  have hb : (b (a + (i - a))).val = 0 := by simpa using hmem
  rwa [Nat.add_sub_cancel' hi1] at hb

theorem dataPacketHeaderVerify_ok_facts (b : Buffer) (L : Nat)
    (h : DataPacketHeader.verify b L = Except.ok ()) :
    packetTypeOf b = E57_DATA_PACKET ∧
    bytestreamCount b ≠ 0 ∧
    sizeofDataPacketHeader + 2 * bytestreamCount b ≤ packetLogicalLengthMinus1 b + 1 := by
  simp only [DataPacketHeader.verify] at h
  by_cases h1 : packetTypeOf b ≠ E57_DATA_PACKET
  · rw [if_pos h1] at h; exact Except.noConfusion h
  rw [if_neg h1] at h
  by_cases h2 : packetLogicalLengthMinus1 b + 1 < sizeofDataPacketHeader
  · rw [if_pos h2] at h; exact Except.noConfusion h
  rw [if_neg h2] at h
  by_cases h3 : (packetLogicalLengthMinus1 b + 1) % 4 ≠ 0
  · rw [if_pos h3] at h; exact Except.noConfusion h
  rw [if_neg h3] at h
  by_cases h4 : 0 < L ∧ L < packetLogicalLengthMinus1 b + 1
  · rw [if_pos h4] at h; exact Except.noConfusion h
  rw [if_neg h4] at h
  by_cases h5 : bytestreamCount b = 0
  · rw [if_pos h5] at h; exact Except.noConfusion h
  rw [if_neg h5] at h
  by_cases h6 : sizeofDataPacketHeader + 2 * bytestreamCount b > packetLogicalLengthMinus1 b + 1
  · rw [if_pos h6] at h; exact Except.noConfusion h
  exact ⟨not_not.mp h1, h5, by omega⟩

theorem dataPacketVerify_ok_facts (b : Buffer) (L : Nat)
    (h : DataPacket.verify b L = Except.ok ()) :
    DataPacketHeader.verify b L = Except.ok () ∧
    sizeofDataPacketHeader + 2 * bytestreamCount b + sumLengths b (bytestreamCount b) ≤
      packetLogicalLengthMinus1 b + 1 ∧
    packetLogicalLengthMinus1 b + 1 ≤
      sizeofDataPacketHeader + 2 * bytestreamCount b + sumLengths b (bytestreamCount b) + 3 ∧
    ∀ i, sizeofDataPacketHeader + 2 * bytestreamCount b + sumLengths b (bytestreamCount b) ≤ i →
      i < packetLogicalLengthMinus1 b + 1 → (b i).val = 0 := by
  simp only [DataPacket.verify] at h
  cases hh : DataPacketHeader.verify b L with
  | error e => rw [hh] at h; exact Except.noConfusion h
  | ok u =>
    rw [hh] at h
    simp only [] at h
    by_cases h1 : sizeofDataPacketHeader + 2 * bytestreamCount b + sumLengths b (bytestreamCount b) >
        packetLogicalLengthMinus1 b + 1 ∨
        sizeofDataPacketHeader + 2 * bytestreamCount b + sumLengths b (bytestreamCount b) + 3 <
        packetLogicalLengthMinus1 b + 1
    · rw [if_pos h1] at h; exact Except.noConfusion h
    rw [if_neg h1] at h
    by_cases h2 : ¬ (((List.range (packetLogicalLengthMinus1 b + 1 -
        (sizeofDataPacketHeader + 2 * bytestreamCount b + sumLengths b (bytestreamCount b)))).all
        fun k => (b (sizeofDataPacketHeader + 2 * bytestreamCount b +
          sumLengths b (bytestreamCount b) + k)).val == 0) = true)
    · rw [if_pos h2] at h; exact Except.noConfusion h
    refine ⟨by cases u; rfl, by omega, by omega, ?_⟩
    intro i hi1 hi2
    have hz := allZero_of_rangeAll (not_not.mp h2)
    exact hz i hi1 (by omega)

/-!
### Claim theorems: data packets
-/

/-- Claim C3, counterexample: the spec's data-packet scenario claims that
declaring logical length 43 with 3 trailing zero padding bytes makes
`DataPacket::verify` succeed, but on exactly that packet
(`bytestreamCount = 2`, length table `{10, 20}`, padding bytes 40..42 all
zero) verify throws `E57_ERROR_BAD_CV_PACKET`, because 43 is not a multiple
of 4. -/
theorem dataScenario43_rejected :
    DataPacket.verify dataScenarioBuf43 43 = Except.error E57ErrorCode.badCVPacket ∧
    bytestreamCount dataScenarioBuf43 = 2 ∧
    bsbLength dataScenarioBuf43 0 = 10 ∧
    bsbLength dataScenarioBuf43 1 = 20 ∧
    packetLogicalLengthMinus1 dataScenarioBuf43 + 1 = 43 ∧
    ((List.range 3).all fun k => (dataScenarioBuf43 (40 + k)).val == 0) = true ∧
    43 % 4 ≠ 0 := by decide

/-- Claim C3, amended: for the scenario data packet (`bytestreamCount = 2`,
length table `{10, 20}`, needed length 6 + 4 + 30 = 40), declaring logical
length 43 makes verify fail (length not a multiple of 4), declaring the
exact needed length 40 makes verify succeed, and declaring logical length
44 makes verify fail (exceeds the 3-byte slack above 40). -/
theorem dataScenario_verify_outcomes :
    sizeofDataPacketHeader + 2 * bytestreamCount dataScenarioBuf40 +
      sumLengths dataScenarioBuf40 (bytestreamCount dataScenarioBuf40) = 40 ∧
    DataPacket.verify dataScenarioBuf40 40 = Except.ok () ∧
    DataPacket.verify dataScenarioBuf43 43 = Except.error E57ErrorCode.badCVPacket ∧
    DataPacket.verify dataScenarioBuf44 44 = Except.error E57ErrorCode.badCVPacket := by
  decide

/-- Claim C4, counterexample: on a data packet whose length table is
corrupted (stream 0 claims 100 bytes but the declared packet length is 12),
`DataPacket::getBytestream(0)` throws `E57_ERROR_INTERNAL`, not the
BadFormat error code `E57_ERROR_BAD_CV_PACKET` the claim names. -/
theorem getBytestream_oob_is_internal_error :
    DataPacket.getBytestream corruptLengthTableBuf 0 = Except.error E57ErrorCode.internal ∧
    Except.error E57ErrorCode.internal ≠
      (Except.error E57ErrorCode.badCVPacket : Except E57ErrorCode (Nat × Nat)) ∧
    0 < bytestreamCount corruptLengthTableBuf ∧
    packetLogicalLengthMinus1 corruptLengthTableBuf + 1 <
      sizeofDataPacketHeader + 2 * bytestreamCount corruptLengthTableBuf +
        sumLengths corruptLengthTableBuf 0 + bsbLength corruptLengthTableBuf 0 := by decide

/-- Claim C4, amended: for every data packet and valid bytestream index
`n < bytestreamCount`, if the computed end position (header size +
2*bytestreamCount + sum of preceding stream lengths + the n-th length)
exceeds the declared packet logical length, `DataPacket::getBytestream(n)`
fails with an InternalError (`E57_ERROR_INTERNAL`), the error kind for
internal consistency failures, distinct from the on-disk format error
kind. -/
theorem getBytestream_oob_internal (b : Buffer) (n : Nat)
    (htype : packetTypeOf b = E57_DATA_PACKET)
    (hn : n < bytestreamCount b)
    (hover : packetLogicalLengthMinus1 b + 1 <
      sizeofDataPacketHeader + 2 * bytestreamCount b + sumLengths b n + bsbLength b n) :
    DataPacket.getBytestream b n = Except.error E57ErrorCode.internal := by
  simp only [DataPacket.getBytestream]
  rw [if_neg (fun hc => hc htype), if_neg (by omega), if_pos (by omega)]

/-- Witness for `getBytestream_oob_internal` at the corrupted-length-table
packet and stream index 0. -/
theorem getBytestream_oob_internal_witness :
    DataPacket.getBytestream corruptLengthTableBuf 0 = Except.error E57ErrorCode.internal :=
  getBytestream_oob_internal corruptLengthTableBuf 0 (by decide) (by decide) (by decide)

/-- Claim C5: for every data packet buffer on which `DataPacket::verify`
succeeds, `sizeof(DataPacketHeader) + 2*bytestreamCount + sum of the length
table` is at most the declared logical length and at least that length
minus 3, and every byte from that needed length up to the declared length
is zero. -/
theorem dataPacket_verify_roundtrip (b : Buffer) (L : Nat)
    (h : DataPacket.verify b L = Except.ok ()) :
    sizeofDataPacketHeader + 2 * bytestreamCount b + sumLengths b (bytestreamCount b) ≤
      packetLogicalLengthMinus1 b + 1 ∧
    packetLogicalLengthMinus1 b + 1 ≤
      sizeofDataPacketHeader + 2 * bytestreamCount b + sumLengths b (bytestreamCount b) + 3 ∧
    ∀ i, sizeofDataPacketHeader + 2 * bytestreamCount b + sumLengths b (bytestreamCount b) ≤ i →
      i < packetLogicalLengthMinus1 b + 1 → (b i).val = 0 := by
  have hf := dataPacketVerify_ok_facts b L h
  exact ⟨hf.2.1, hf.2.2.1, hf.2.2.2⟩

/-- Witness for `dataPacket_verify_roundtrip` at the valid length-40
scenario packet. -/
theorem dataPacket_verify_roundtrip_witness :
    sizeofDataPacketHeader + 2 * bytestreamCount dataScenarioBuf40 +
      sumLengths dataScenarioBuf40 (bytestreamCount dataScenarioBuf40) ≤
      packetLogicalLengthMinus1 dataScenarioBuf40 + 1 ∧
    packetLogicalLengthMinus1 dataScenarioBuf40 + 1 ≤
      sizeofDataPacketHeader + 2 * bytestreamCount dataScenarioBuf40 +
        sumLengths dataScenarioBuf40 (bytestreamCount dataScenarioBuf40) + 3 :=
  ⟨(dataPacket_verify_roundtrip dataScenarioBuf40 40 (by decide)).1,
   (dataPacket_verify_roundtrip dataScenarioBuf40 40 (by decide)).2.1⟩

/-- Claim C8: for every validated data packet, `getBytestream(n)` with
`n ≥ bytestreamCount` fails with `E57_ERROR_INTERNAL`; for `n <
bytestreamCount` it returns the view whose length is the n-th length-table
entry and whose offset is the header size plus `2*bytestreamCount` plus the
sum of the preceding stream lengths, with `offset + length` at most the
declared packet logical length. -/
theorem getBytestream_contract (b : Buffer) (L n : Nat)
    (h : DataPacket.verify b L = Except.ok ()) :
    (bytestreamCount b ≤ n →
      DataPacket.getBytestream b n = Except.error E57ErrorCode.internal) ∧
    (n < bytestreamCount b →
      DataPacket.getBytestream b n =
        Except.ok (sizeofDataPacketHeader + 2 * bytestreamCount b + sumLengths b n,
          bsbLength b n) ∧
      sizeofDataPacketHeader + 2 * bytestreamCount b + sumLengths b n + bsbLength b n ≤
        packetLogicalLengthMinus1 b + 1) := by
  have hf := dataPacketVerify_ok_facts b L h
  have hhd := dataPacketHeaderVerify_ok_facts b L hf.1
  constructor
  · intro hn
    simp only [DataPacket.getBytestream]
    rw [if_neg (fun hc => hc hhd.1), if_pos hn]
  · intro hn
    have hsum : sumLengths b n + bsbLength b n = sumLengths b (n + 1) := rfl
    have hle : sumLengths b (n + 1) ≤ sumLengths b (bytestreamCount b) :=
      sumLengths_le b hn
    have hbound : sizeofDataPacketHeader + 2 * bytestreamCount b + sumLengths b n +
        bsbLength b n ≤ packetLogicalLengthMinus1 b + 1 := by
      have := hf.2.1
      omega
    refine ⟨?_, hbound⟩
    simp only [DataPacket.getBytestream]
    rw [if_neg (fun hc => hc hhd.1), if_neg (by omega), if_neg (by omega)]

/-- Witness for `getBytestream_contract`: at the valid length-40 scenario
packet, stream 1 is returned as the view at offset 6 + 4 + 10 with length
20. -/
theorem getBytestream_contract_witness :
    DataPacket.getBytestream dataScenarioBuf40 1 =
      Except.ok (sizeofDataPacketHeader + 2 * bytestreamCount dataScenarioBuf40 +
        sumLengths dataScenarioBuf40 1, bsbLength dataScenarioBuf40 1) :=
  (((getBytestream_contract dataScenarioBuf40 40 1 (by decide)).2) (by decide)).1

/-!
### Helper lemmas: the LRU scan
-/

theorem lruFold_spec (l : List CacheEntry) (k : Nat) :
    ∀ (i b u : Nat),
      u = (l.getD b default).lastUsed →
      (∀ j, j < i → u ≤ (l.getD j default).lastUsed) →
      (∀ j, j < b → u < (l.getD j default).lastUsed) →
      (lruFold l (List.range' i k) (b, u)).2 =
        (l.getD (lruFold l (List.range' i k) (b, u)).1 default).lastUsed ∧
      (∀ j, j < i + k →
        (lruFold l (List.range' i k) (b, u)).2 ≤ (l.getD j default).lastUsed) ∧
      (∀ j, j < (lruFold l (List.range' i k) (b, u)).1 →
        (lruFold l (List.range' i k) (b, u)).2 < (l.getD j default).lastUsed) ∧
      ((lruFold l (List.range' i k) (b, u)).1 = b ∨
        (lruFold l (List.range' i k) (b, u)).1 < i + k) := by
  induction k with
  | zero =>
    intro i b u h1 h2 h3
    exact ⟨h1, fun j hj => h2 j (by omega), h3, Or.inl rfl⟩
  | succ k ih =>
    intro i b u h1 h2 h3
    have hstep : lruFold l (List.range' i (k + 1)) (b, u) =
        lruFold l (List.range' (i + 1) k)
          (if (l.getD i default).lastUsed < u then (i, (l.getD i default).lastUsed)
            else (b, u)) := rfl
    rw [hstep]
    by_cases hc : (l.getD i default).lastUsed < u
    · rw [if_pos hc]
      have h2n : ∀ j, j < i + 1 → (l.getD i default).lastUsed ≤ (l.getD j default).lastUsed := by
        intro j hj
        rcases Nat.lt_or_ge j i with hji | hji
        · exact Nat.le_of_lt (Nat.lt_of_lt_of_le hc (h2 j hji))
        · have : j = i := by omega
          subst this; exact Nat.le_refl _
      have h3n : ∀ j, j < i → (l.getD i default).lastUsed < (l.getD j default).lastUsed :=
        fun j hj => Nat.lt_of_lt_of_le hc (h2 j hj)
      obtain ⟨c1, c2, c3, c4⟩ := ih (i + 1) i ((l.getD i default).lastUsed) rfl h2n h3n
      refine ⟨c1, fun j hj => c2 j (by omega), c3, ?_⟩
      rcases c4 with c4 | c4
      · exact Or.inr (by omega)
      · exact Or.inr (by omega)
    · rw [if_neg hc]
      have h2n : ∀ j, j < i + 1 → u ≤ (l.getD j default).lastUsed := by
        intro j hj
        rcases Nat.lt_or_ge j i with hji | hji
        · exact h2 j hji
        · have : j = i := by omega
          subst this; exact Nat.le_of_not_lt hc
      obtain ⟨c1, c2, c3, c4⟩ := ih (i + 1) b u h1 h2n h3
      refine ⟨c1, fun j hj => c2 j (by omega), c3, ?_⟩
      rcases c4 with c4 | c4
      · exact Or.inl c4
      · exact Or.inr (by omega)

theorem lruSlot_spec (st : CacheState) (h : 0 < st.entries.length) :
    lruSlot st < st.entries.length ∧
    (∀ j, j < st.entries.length →
      (st.entries.getD (lruSlot st) default).lastUsed ≤
        (st.entries.getD j default).lastUsed) ∧
    (∀ j, j < lruSlot st →
      (st.entries.getD (lruSlot st) default).lastUsed <
        (st.entries.getD j default).lastUsed) := by
  have hs := lruFold_spec st.entries st.entries.length 0 0
      ((st.entries.getD 0 default).lastUsed) rfl
      (fun j hj => absurd hj (by omega)) (fun j hj => absurd hj (by omega))
  rw [← List.range_eq_range'] at hs
  obtain ⟨hq1, hq2, hq3, hq4⟩ := hs
  have hlt : lruSlot st < st.entries.length := by
    unfold lruSlot
    rcases hq4 with hq4 | hq4
    · rw [hq4]; exact h
    · omega
  refine ⟨hlt, ?_, ?_⟩
  · intro j hj
    have := hq2 j (by omega)
    unfold lruSlot
    rw [← hq1]
    exact this
  · intro j hj
    have := hq3 j hj
    unfold lruSlot
    rw [← hq1]
    exact this

/-!
### Claim theorems: index packet scenario
-/

/-- Claim C1: on the spec's 3-entry level-0 index packet with declared
logical length 64, `IndexPacket::verify` (even with the `E57_MAX_DEBUG`
extended checks enabled) throws `E57_ERROR_BAD_CV_PACKET` instead of
succeeding: the length check compares `packetLength` against
`sizeof(IndexPacket)` = 32784 (the whole maximum-size struct) although the
code comment says "large enough to hold header" (16 bytes).  The entries
themselves decode as `(0,1024), (5,2048), (9,4096)` and pass the sorted
check, while in the buffer with entries 2 and 3 swapped they fail it; both
buffers are rejected with BadFormat by the length check either way. -/
theorem indexScenario_rejected_by_length_check :
    IndexPacket.verify indexScenarioBuf 64 0 0 true =
      Except.error E57ErrorCode.badCVPacket ∧
    IndexPacket.verify indexScenarioSwappedBuf 64 0 0 true =
      Except.error E57ErrorCode.badCVPacket ∧
    packetLogicalLengthMinus1 indexScenarioBuf + 1 = 64 ∧
    entryCount indexScenarioBuf = 3 ∧
    indexLevel indexScenarioBuf = 0 ∧
    chunkRecordNumber indexScenarioBuf 0 = 0 ∧
    chunkPhysicalOffset indexScenarioBuf 0 = 1024 ∧
    chunkRecordNumber indexScenarioBuf 1 = 5 ∧
    chunkPhysicalOffset indexScenarioBuf 1 = 2048 ∧
    chunkRecordNumber indexScenarioBuf 2 = 9 ∧
    chunkPhysicalOffset indexScenarioBuf 2 = 4096 ∧
    IndexPacket.entriesSorted indexScenarioBuf 0 0 = true ∧
    IndexPacket.entriesSorted indexScenarioSwappedBuf 0 0 = false ∧
    16 ≤ 64 ∧ 64 < sizeofIndexPacket := by decide

/-!
### Claim theorems: packet read cache
-/

/-- Claim C2: after `readPacket` fails on the packet at logical offset 12
(unknown discriminator 7), the single cache slot still carries
`logicalOffset_ = 4` — a valid-looking offset — while its buffer now holds
the bytes read from offset 12 (first byte 7, whereas the packet at offset 4
starts with byte 2), and a subsequent `lock(4)` returns that slot as a
cache hit, handing out the wrong bytes.  This is exactly the unsafe state
the claim says cannot arise. -/
theorem readPacket_failure_leaves_stale_mapping :
    (readPacket testFile cacheHolding4 0 12).2 = Except.error E57ErrorCode.internal ∧
    ((readPacket testFile cacheHolding4 0 12).1.entries.getD 0 default).logicalOffset = 4 ∧
    (((readPacket testFile cacheHolding4 0 12).1.entries.getD 0 default).buffer 0).val = 7 ∧
    (testFile 4).val = 2 ∧
    (testFile 12).val = 7 ∧
    (lock testFile (readPacket testFile cacheHolding4 0 12).1 4).2 = Except.ok 0 ∧
    (((lock testFile (readPacket testFile cacheHolding4 0 12).1 4).1.entries.getD 0
        default).buffer 0).val = 7 := by decide

/-- Claim C6: a `lock` call while a lock is outstanding fails with
`E57_ERROR_INTERNAL` and leaves the cache unchanged; once the lock count is
back to 0, a `lock` on a valid nonzero offset (one already cached, or one
whose packet reads and verifies successfully) succeeds. -/
theorem lock_exclusivity (f : Buffer) (st : CacheState) (off : Nat) :
    (st.lockCount = 1 → lock f st off = (st, Except.error E57ErrorCode.internal)) ∧
    (st.lockCount = 0 → off ≠ 0 →
      ((∃ i, st.entries.findIdx? (fun e => e.logicalOffset == off) = some i) ∨
        (readPacket f st (lruSlot st) off).2 = Except.ok ()) →
      ∃ i st1, lock f st off = (st1, Except.ok i)) := by
  constructor
  · intro h1
    simp only [lock]
    rw [if_pos (by omega)]
  · intro h0 hoff hready
    simp only [lock]
    rw [if_neg (by omega), if_neg hoff]
    cases hfind : st.entries.findIdx? (fun e => e.logicalOffset == off) with
    | some i => exact ⟨i, _, rfl⟩
    | none =>
      rcases hready with ⟨i, hsome⟩ | hok
      · rw [hfind] at hsome; exact Option.noConfusion hsome
      · rw [hok]
        exact ⟨lruSlot st, _, rfl⟩

/-- Witness for `lock_exclusivity`: with the one-slot `lockedCache`
(`lockCount = 1`), locking offset 4 fails with InternalError and leaves the
state untouched; after `unlock` brings the count back to 0, locking offset
4 (a valid empty packet in `testFile`) succeeds. -/
theorem lock_exclusivity_witness :
    lock testFile lockedCache 4 = (lockedCache, Except.error E57ErrorCode.internal) ∧
    ∃ i st1, lock testFile (unlock lockedCache 0).1 4 = (st1, Except.ok i) :=
  ⟨(lock_exclusivity testFile lockedCache 4).1 (by decide),
   (lock_exclusivity testFile (unlock lockedCache 0).1 4).2 (by decide) (by decide)
     (Or.inr (by decide))⟩

/-- Claim C7: on a cache miss (no outstanding lock, nonzero offset, offset
in no slot), a successful `lock` returns the slot chosen by the LRU scan:
the slot index with the minimum `lastUsed` stamp, ties broken by the lowest
index — every other slot has a `lastUsed` at least as large, and every slot
with a smaller index has a strictly larger one. -/
theorem lock_miss_selects_lru (f : Buffer) (st : CacheState) (off : Nat)
    (st1 : CacheState) (i : Nat)
    (hne : 0 < st.entries.length)
    (h0 : st.lockCount = 0) (hoff : off ≠ 0)
    (hmiss : st.entries.findIdx? (fun e => e.logicalOffset == off) = none)
    (heq : lock f st off = (st1, Except.ok i)) :
    i = lruSlot st ∧ i < st.entries.length ∧
    (∀ j, j < st.entries.length →
      (st.entries.getD i default).lastUsed ≤ (st.entries.getD j default).lastUsed) ∧
    (∀ j, j < i →
      (st.entries.getD i default).lastUsed < (st.entries.getD j default).lastUsed) := by
  have hsp := lruSlot_spec st hne
  simp only [lock] at heq
  rw [if_neg (by omega), if_neg hoff, hmiss] at heq
  cases hr : (readPacket f st (lruSlot st) off).2 with
  | error e =>
    rw [hr] at heq
    have := congrArg Prod.snd heq
    exact Except.noConfusion this
  | ok u =>
    rw [hr] at heq
    have hsnd := congrArg Prod.snd heq
    have hi : lruSlot st = i := by
      simpa using hsnd
    subst hi
    exact ⟨rfl, hsp.1, hsp.2.1, hsp.2.2⟩

/-- Witness for `lock_miss_selects_lru`: in the two-slot cache whose slot 0
was last used at stamp 7 and slot 1 at stamp 3, locking the uncached offset
4 replaces slot 1, the least recently used slot. -/
theorem lock_miss_selects_lru_witness :
    1 = lruSlot twoSlotCache ∧ 1 < twoSlotCache.entries.length :=
  ⟨(lock_miss_selects_lru testFile twoSlotCache 4
      (lock testFile twoSlotCache 4).1 1 (by decide) (by decide) (by decide) (by decide)
      (by
        have h2 : (lock testFile twoSlotCache 4).2 = Except.ok 1 := by decide
        calc lock testFile twoSlotCache 4
            = ((lock testFile twoSlotCache 4).1, (lock testFile twoSlotCache 4).2) := rfl
          _ = ((lock testFile twoSlotCache 4).1, Except.ok 1) := by rw [h2])).1,
   (lock_miss_selects_lru testFile twoSlotCache 4
      (lock testFile twoSlotCache 4).1 1 (by decide) (by decide) (by decide) (by decide)
      (by
        have h2 : (lock testFile twoSlotCache 4).2 = Except.ok 1 := by decide
        calc lock testFile twoSlotCache 4
            = ((lock testFile twoSlotCache 4).1, (lock testFile twoSlotCache 4).2) := rfl
          _ = ((lock testFile twoSlotCache 4).1, Except.ok 1) := by rw [h2])).2.1⟩

/-- Claim C9: the declared packet length decoded in `readPacket` from the
4-byte common header prefix is `packetLogicalLengthMinus1 + 1` with the
minus-1 field an unsigned 16-bit value, so it never exceeds
`E57_DATA_PACKET_MAX` = 65536; hence the over-long-length guard is
unreachable (`readPacket` always equals its guard-free body) and the full
read of `packetLength` bytes stays within the 65536-byte slot buffer. -/
theorem readPacket_length_guard_unreachable (f : Buffer) (st : CacheState)
    (oldestEntry off : Nat) :
    u16At f (off + 2) + 1 ≤ E57_DATA_PACKET_MAX ∧
    readPacket f st oldestEntry off = readPacketBody f st oldestEntry off := by
  have h2 := (f (off + 2)).isLt
  have h3 := (f (off + 2 + 1)).isLt
  have hb : u16At f (off + 2) + 1 ≤ E57_DATA_PACKET_MAX := by
    unfold u16At E57_DATA_PACKET_MAX
    omega
  refine ⟨hb, ?_⟩
  simp only [readPacket]
  rw [if_neg (by omega)]

/-- Claim C10: `PacketLock::~PacketLock` always hands its holder the state
`unlock` produced and never an error; when the lock count is not exactly 1,
`unlock` signals `E57_ERROR_INTERNAL` but the destructor swallows it and
the state is unchanged; when the lock count is 1, the destructor performs
the release. -/
theorem packetLock_destructor_suppresses (st : CacheState) (k : Nat) :
    PacketLock.destruct st k = (unlock st k).1 ∧
    (st.lockCount ≠ 1 →
      (unlock st k).2 = Except.error E57ErrorCode.internal ∧
      PacketLock.destruct st k = st) ∧
    (st.lockCount = 1 →
      (unlock st k).2 = Except.ok () ∧
      PacketLock.destruct st k = { st with lockCount := 0 }) := by
  refine ⟨rfl, ?_, ?_⟩
  · intro h
    unfold PacketLock.destruct unlock
    rw [if_pos h]
    exact ⟨rfl, rfl⟩
  · intro h
    unfold PacketLock.destruct unlock
    rw [if_neg (not_not_intro h), h]
    exact ⟨rfl, rfl⟩

/-- Witness for `packetLock_destructor_suppresses`: destroying a guard over
a cache with corrupted lock count 2 leaves the state unchanged even though
`unlock` signals an InternalError. -/
theorem packetLock_destructor_suppresses_witness :
    (unlock doubleLockedCache 3).2 = Except.error E57ErrorCode.internal ∧
    PacketLock.destruct doubleLockedCache 3 = doubleLockedCache :=
  (packetLock_destructor_suppresses doubleLockedCache 3).2.1 (by decide)

end E57
